import Mathlib

/-!
Shallow embedding of the obexd client session core:
namespace Obc models src/obexd/client/session.c, and namespace Bt models
src/obexd/client/bluetooth.c.  External collaborators (GLib, D-Bus, the
OBEX engine, the transfer subsystem, the agent proxy and the SDP/RFCOMM
socket layer) are represented by explicit parameters carrying the outcome
of each external call, and by an event trace recording every observable
call made into them.
-/

namespace Obc

/-- A queued transfer, as the session sees it: a stable identity and the
optional externally addressable path (obc_transfer_get_path). -/
structure Transfer where
  tid : Nat
  tpath : Option String
deriving Repr, DecidableEq

/-- The agent binding of a session (name and object path). -/
structure Agent where
  aname : String
  apath : String
deriving Repr, DecidableEq

/-- Identity of a stored session callback closure (struct session_callback). -/
structure Callback where
  cbId : Nat
deriving Repr, DecidableEq

/-- Observable calls from session.c into its collaborators. -/
inductive Ev where
  /-- obc_transfer_unregister on a transfer -/
  | transferUnregister (t : Nat)
  /-- obc_transfer_get invoked (start of a GET stream) -/
  | transferGetStart (t : Nat)
  /-- obc_transfer_put invoked (start of a PUT stream) -/
  | transferPutStart (t : Nat)
  /-- session_request entered for a transfer (authorization gate) -/
  | sessionRequested (t : Nat)
  /-- obc_agent_request issued to the bound agent -/
  | agentRequest (t : Nat)
  /-- the session's stored completion callback fired -/
  | callbackFired (err : Option String)
  /-- the caller's connect callback fired -/
  | connectCbFired (err : Option String)
  /-- obc_agent_notify_error -/
  | agentNotifyError (t : Nat)
  /-- transport->disconnect(id) -/
  | transportDisconnect (id : Nat)
  /-- g_dbus_unregister_interface on the session path -/
  | dbusUnregister (p : String)
  /-- transport->connect invoked (a new transport connection attempt) -/
  | transportConnect
  /-- g_idle_add(connection_complete): deferred connect callback -/
  | idleConnectionComplete
  /-- the session was prepended to the process-wide sessions registry -/
  | registryPrepend
  /-- obc_agent_release on the bound agent -/
  | agentReleased
  /-- the session object was freed (session_free) -/
  | freed
deriving Repr, DecidableEq

/-- Which prepare continuation a session_request will invoke on approval. -/
inductive PrepareFn where
  | get
  | put
deriving Repr, DecidableEq

/-- An authorization kicked off by session_request and still awaiting its
(possibly deferred) approval: either the trivial grant scheduled through
g_idle_add(session_request_proceed), or an Agent.Request in flight. -/
structure AuthOutcome where
  fn : PrepareFn
  transfer : Transfer
  viaAgent : Bool
deriving Repr, DecidableEq

/-- struct obc_session.  The addr field stands for the C object identity
(pointer value); obex is whether the GObex handle is set; id is the
transport connection id; transport is whether session->transport is
non-NULL; freed records that session_free ran. -/
structure ObcSession where
  addr : Nat
  id : Nat
  refcount : Nat
  source : Option String
  destination : String
  driverService : String
  channel : Nat
  obex : Bool
  agent : Option Agent
  callback : Option Callback
  owner : Option String
  watch : Nat
  path : Option String
  pending : List Transfer
  transport : Bool
  freed : Bool
deriving Repr, DecidableEq

/-- Uniform result of the session operations: C return value, the session
afterwards, the authorizations now in flight, and the event trace. -/
structure OpResult where
  ret : Int
  state : ObcSession
  auths : List AuthOutcome
  events : List Ev
deriving Repr, DecidableEq

/-- g_slist_remove: drop the first occurrence of a transfer. -/
def eraseTransfer : List Transfer → Transfer → List Transfer
  | [], _ => []
  | x :: xs, t => if x = t then xs else x :: eraseTransfer xs t

/-- obc_session_ref: g_atomic_int_inc of the reference count. -/
def obc_session_ref (s : ObcSession) : ObcSession :=
  { s with refcount := s.refcount + 1 }

/-- session_free: release the agent, drop the watch, unref the GObex handle,
disconnect the transport when an id is held, retract the registered path,
leave the registry and free the object. -/
def session_free (s : ObcSession) : ObcSession × List Ev :=
  let evAgent := if s.agent.isSome then [Ev.agentReleased] else []
  let evDisc := if s.id != 0 && s.transport then [Ev.transportDisconnect s.id] else []
  let evPath := match s.path with
    | some p => [Ev.dbusUnregister p]
    | none => []
  ({ s with freed := true, path := none },
    evAgent ++ evDisc ++ evPath ++ [Ev.freed])

/-- obc_session_unref: g_atomic_int_dec_and_test, freeing at zero. -/
def obc_session_unref (s : ObcSession) : ObcSession × List Ev :=
  if s.refcount - 1 = 0 then session_free { s with refcount := 0 }
  else ({ s with refcount := s.refcount - 1 }, [])

/-- obc_session_add_transfer: append to the pending queue and take a ref. -/
def obc_session_add_transfer (s : ObcSession) (t : Transfer) : ObcSession :=
  { obc_session_ref s with pending := s.pending ++ [t] }

/-- obc_session_remove_transfer: unlink from the pending queue, unregister
the transfer and drop its ref. -/
def obc_session_remove_transfer (s : ObcSession) (t : Transfer) :
    ObcSession × List Ev :=
  let s1 := { s with pending := eraseTransfer s.pending t }
  let r2 := obc_session_unref s1
  (r2.1, Ev.transferUnregister t.tid :: r2.2)

/-- session_request: when no agent is bound or the transfer has no path,
authorization is trivially granted through a deferred idle callback;
otherwise Agent.Request is issued (agentReqErr is the external return of
obc_agent_request, 0 on success). -/
def session_request (s : ObcSession) (fn : PrepareFn) (t : Transfer)
    (agentReqErr : Int) : Int × List AuthOutcome × List Ev :=
  if s.agent.isNone || t.tpath.isNone then
    (0, [⟨fn, t, false⟩], [Ev.sessionRequested t.tid])
  else if agentReqErr < 0 then
    (agentReqErr, [], [Ev.sessionRequested t.tid])
  else
    (0, [⟨fn, t, true⟩], [Ev.sessionRequested t.tid, Ev.agentRequest t.tid])

/-- session_terminate_transfer.  With a stored callback: ref, fire the
callback, unlink the transfer when still queued, unref and return.  Without
one: ref, unlink the transfer, and when entries remain issue
session_request(session_prepare_put) for the new queue head, then unref. -/
def session_terminate_transfer (s : ObcSession) (t : Transfer)
    (gerr : Option String) (agentReqErr : Int) : OpResult :=
  match s.callback with
  | some _ =>
    let s1 := obc_session_ref s
    let evCb := [Ev.callbackFired gerr]
    let r2 := if t ∈ s1.pending then obc_session_remove_transfer s1 t
              else (s1, [])
    let r3 := obc_session_unref r2.1
    ⟨0, r3.1, [], evCb ++ r2.2 ++ r3.2⟩
  | none =>
    let s1 := obc_session_ref s
    let r2 := obc_session_remove_transfer s1 t
    let next :=
      match r2.1.pending with
      | [] => ((0 : Int), ([] : List AuthOutcome), ([] : List Ev))
      | h :: _ => session_request r2.1 .put h agentReqErr
    let r4 := obc_session_unref r2.1
    ⟨0, r4.1, next.2.1, r2.2 ++ next.2.2 ++ r4.2⟩

/-- session_notify_error: notify the agent when the transfer has a path,
then terminate the transfer with the error. -/
def session_notify_error (s : ObcSession) (t : Transfer) (msg : String)
    (agentReqErr : Int) : OpResult :=
  let evAg := if s.agent.isSome && t.tpath.isSome then [Ev.agentNotifyError t.tid]
              else []
  let r := session_terminate_transfer s t (some msg) agentReqErr
  ⟨0, r.state, r.auths, evAg ++ r.events⟩

/-- session_prepare_get: invoke obc_transfer_get; on a negative start
result follow the error-notification path (startErr is the external return
of obc_transfer_get). -/
def session_prepare_get (s : ObcSession) (t : Transfer) (startErr : Int)
    (agentReqErr : Int) : OpResult :=
  if startErr < 0 then
    let r := session_notify_error s t ("start failed") agentReqErr
    ⟨0, r.state, r.auths, Ev.transferGetStart t.tid :: r.events⟩
  else
    ⟨0, s, [], [Ev.transferGetStart t.tid]⟩

/-- session_prepare_put: invoke obc_transfer_put; on a negative start
result follow the error-notification path. -/
def session_prepare_put (s : ObcSession) (t : Transfer) (startErr : Int)
    (agentReqErr : Int) : OpResult :=
  if startErr < 0 then
    let r := session_notify_error s t ("start failed") agentReqErr
    ⟨0, r.state, r.auths, Ev.transferPutStart t.tid :: r.events⟩
  else
    ⟨0, s, [], [Ev.transferPutStart t.tid]⟩

/-- Delivery of a granted authorization: session_request_proceed (idle
path) or a successful Agent.Request reply both invoke the stored prepare
continuation with no error. -/
def deliver_auth_approval (s : ObcSession) (o : AuthOutcome) (startErr : Int)
    (agentReqErr : Int) : OpResult :=
  match o.fn with
  | .get => session_prepare_get s o.transfer startErr agentReqErr
  | .put => session_prepare_put s o.transfer startErr agentReqErr

/-- session_unregistered: driver->remove, then unregister the D-Bus
interface at the session path and clear it. -/
def session_unregistered (s : ObcSession) : ObcSession × List Ev :=
  ({ s with path := none },
    match s.path with
    | some p => [Ev.dbusUnregister p]
    | none => [])

/-- The loop of obc_session_shutdown, removing each transfer of the
snapshot of the pending list taken at entry. -/
def shutdownRemoveAll (s : ObcSession) (l : List Transfer) :
    ObcSession × List Ev :=
  match l with
  | [] => (s, [])
  | t :: ts =>
    let r1 := obc_session_remove_transfer s t
    let r2 := shutdownRemoveAll r1.1 ts
    (r2.1, r1.2 ++ r2.2)

/-- obc_session_shutdown: take a guard ref, unregister every pending
transfer, retract the registered interface when present, disconnect the
transport when an id is still held (zeroing it), then drop the guard. -/
def obc_session_shutdown (s : ObcSession) : ObcSession × List Ev :=
  let s0 := obc_session_ref s
  let r1 := shutdownRemoveAll s0 s0.pending
  let r2 :=
    match r1.1.path with
    | some _ => session_unregistered r1.1
    | none => (r1.1, [])
  let r3 :=
    if r2.1.id != 0 && r2.1.transport then
      ({ r2.1 with id := 0 }, [Ev.transportDisconnect r2.1.id])
    else (r2.1, [])
  let r4 := obc_session_unref r3.1
  (r4.1, r1.2 ++ r2.2 ++ r3.2 ++ r4.2)

/-- ENOTCONN as returned by the transfer entry points. -/
def ENOTCONN : Int := 107
/-- EISCONN, the busy error of the raw-buffer put. -/
def EISCONN : Int := 106
/-- EIO, returned when transfer registration fails. -/
def EIOVal : Int := 5
/-- EINVAL. -/
def EINVAL : Int := 22

/-- obc_session_get: reject when no OBEX handle; register the transfer
(registerOk is the external outcome); store the new callback when one is
given; kick off authorization; only then append to the pending queue. -/
def obc_session_get (s : ObcSession) (t : Transfer) (func : Option Callback)
    (registerOk : Bool) (agentReqErr : Int) : OpResult :=
  if !s.obex then ⟨-ENOTCONN, s, [], []⟩
  else if !registerOk then ⟨-EIOVal, s, [], []⟩
  else
    let s1 := match func with
      | some cb => { s with callback := some cb }
      | none => s
    let rq := session_request s1 .get t agentReqErr
    if rq.1 < 0 then ⟨rq.1, s1, [], rq.2.2 ++ [Ev.transferUnregister t.tid]⟩
    else ⟨0, obc_session_add_transfer s1 t, rq.2.1, rq.2.2⟩

/-- obc_session_send: reject when no OBEX handle; register the transfer
and bind it to a file (setFileErr is the external outcome); when the
pending queue is non-empty just append — the transfer starts only when it
becomes the head; otherwise request authorization then append. -/
def obc_session_send (s : ObcSession) (t : Transfer) (registerOk : Bool)
    (setFileErr : Int) (agentReqErr : Int) : OpResult :=
  if !s.obex then ⟨-ENOTCONN, s, [], []⟩
  else if !registerOk then ⟨-EINVAL, s, [], []⟩
  else if setFileErr < 0 then ⟨setFileErr, s, [], [Ev.transferUnregister t.tid]⟩
  else if !s.pending.isEmpty then
    ⟨0, obc_session_add_transfer s t, [], []⟩
  else
    let rq := session_request s .put t agentReqErr
    if rq.1 < 0 then ⟨rq.1, s, [], rq.2.2 ++ [Ev.transferUnregister t.tid]⟩
    else ⟨0, obc_session_add_transfer s t, rq.2.1, rq.2.2⟩

/-- obc_session_pull: like obc_session_get but registering a typed pull
transfer with no filename. -/
def obc_session_pull (s : ObcSession) (t : Transfer) (func : Option Callback)
    (registerOk : Bool) (agentReqErr : Int) : OpResult :=
  if !s.obex then ⟨-ENOTCONN, s, [], []⟩
  else if !registerOk then ⟨-EIOVal, s, [], []⟩
  else
    let s1 := match func with
      | some cb => { s with callback := some cb }
      | none => s
    let rq := session_request s1 .get t agentReqErr
    if rq.1 < 0 then ⟨rq.1, s1, [], rq.2.2 ++ [Ev.transferUnregister t.tid]⟩
    else ⟨0, obc_session_add_transfer s1 t, rq.2.1, rq.2.2⟩

/-- obc_session_put: reject when no OBEX handle; reject with EISCONN when
the pending queue is non-empty; register the transfer, attach the raw
buffer and kick off authorization.  Note: the transfer is never added to
the pending queue by this function. -/
def obc_session_put (s : ObcSession) (t : Transfer) (registerOk : Bool)
    (agentReqErr : Int) : OpResult :=
  if !s.obex then ⟨-ENOTCONN, s, [], []⟩
  else if !s.pending.isEmpty then ⟨-EISCONN, s, [], []⟩
  else if !registerOk then ⟨-EIOVal, s, [], []⟩
  else
    let rq := session_request s .put t agentReqErr
    if rq.1 < 0 then ⟨rq.1, s, [], rq.2.2⟩
    else ⟨0, s, rq.2.1, rq.2.2⟩

/-- The response code gobex reports for a successful OBEX CONNECT. -/
def G_OBEX_RSP_SUCCESS : Nat := 0x20

/-- connect_cb: the OBEX CONNECT response arrived (err is a transport
error, rspCode the response code).  Any failure is turned into a GError
handed to the stored connect callback; then the connect-time session ref
is dropped.  Nothing else is torn down here. -/
def connect_cb (s : ObcSession) (err : Option String) (rspCode : Nat) :
    ObcSession × List Ev :=
  let gerr : Option String :=
    match err with
    | some e => some e
    | none =>
      if rspCode = G_OBEX_RSP_SUCCESS then none
      else some ("OBEX Connect failed")
  let r := obc_session_unref s
  (r.1, Ev.connectCbFired gerr :: r.2)

/-- transport_func: the transport connector delivered the stream (or a
connect error).  On error, or when the GObex wrapper cannot be created
(obexNewOk false), or when issuing the OBEX CONNECT request fails
(connectInitErr), the connect callback fires now and the ref is dropped.
Otherwise the GObex handle is retained on the session — before any
response to the handshake — and the session joins the registry. -/
def transport_func (s : ObcSession) (chanErr : Option String)
    (obexNewOk : Bool) (connectInitErr : Option String) :
    ObcSession × List Ev :=
  match chanErr with
  | some e =>
    let r := obc_session_unref s
    (r.1, Ev.connectCbFired (some e) :: r.2)
  | none =>
    if !obexNewOk then
      let r := obc_session_unref s
      (r.1, Ev.connectCbFired none :: r.2)
    else match connectInitErr with
      | some e =>
        let r := obc_session_unref s
        (r.1, Ev.connectCbFired (some e) :: r.2)
      | none =>
        ({ s with obex := true }, [Ev.registryPrepend])

/-- The matching predicate of session_find, with g_strcmp0 semantics on
the optional source and owner (NULL equals only NULL): a NULL requested
source matches any source, a zero requested channel matches any channel. -/
def session_match (s : ObcSession) (source : Option String)
    (destination service : String) (channel : Nat) (owner : Option String) :
    Bool :=
  s.destination == destination &&
  s.driverService == service &&
  (source == (none : Option String) || s.source == source) &&
  (channel == 0 || s.channel == channel) &&
  s.owner == owner

/-- session_find: first session of the process-wide registry matching the
requested tuple. -/
def session_find (reg : List ObcSession) (source : Option String)
    (destination service : String) (channel : Nat) (owner : Option String) :
    Option ObcSession :=
  reg.find? (fun s => session_match s source destination service channel owner)

/-- session_connect: take a ref for the connect callback; when the OBEX
handle already exists, defer connection_complete to an idle callback; when
a transport connect is already in flight (id not zero) just wait for it;
otherwise call transport->connect (connectId is its external return, 0
meaning initiation failure). -/
def session_connect (s : ObcSession) (connectId : Nat) :
    Int × ObcSession × List Ev :=
  let s0 := obc_session_ref s
  if s0.obex then (0, s0, [Ev.idleConnectionComplete])
  else if s0.id != 0 then (0, s0, [])
  else if connectId != 0 then
    (0, { s0 with id := connectId }, [Ev.transportConnect])
  else
    let r := obc_session_unref s0
    (-EINVAL, r.1, Ev.transportConnect :: r.2)

/-- Write back a mutated session into the registry at its address. -/
def replaceByAddr (reg : List ObcSession) (a : Nat) (s : ObcSession) :
    List ObcSession :=
  reg.map (fun x => if x.addr = a then s else x)

/-- obc_session_create: reject a missing destination; reuse the first
matching session of the registry when one exists, otherwise allocate a new
session (binding the owner watch when an owner is given; watchOk is the
external outcome of g_dbus_add_disconnect_watch), then run session_connect
on it.  A freshly created session is NOT entered into the registry here:
it joins only in transport_func. -/
def obc_session_create (reg : List ObcSession) (source : Option String)
    (destination : Option String) (service : String) (channel : Nat)
    (owner : Option String) (newAddr connectId : Nat) (watchOk : Bool) :
    Option ObcSession × List ObcSession × List Ev :=
  match destination with
  | none => (none, reg, [])
  | some dst =>
    match session_find reg source dst service channel owner with
    | some s =>
      let r := session_connect s connectId
      if r.1 < 0 then (none, replaceByAddr reg s.addr r.2.1, r.2.2)
      else (some r.2.1, replaceByAddr reg s.addr r.2.1, r.2.2)
    | none =>
      let ns : ObcSession :=
        { addr := newAddr, id := 0, refcount := 1, source := source,
          destination := dst, driverService := service, channel := channel,
          obex := false, agent := none, callback := none,
          owner := if watchOk then owner else none,
          watch := if owner.isSome && watchOk then 1 else 0,
          path := none, pending := [], transport := true, freed := false }
      let r := session_connect ns connectId
      if r.1 < 0 then (none, reg, r.2.2)
      else (some r.2.1, reg, r.2.2)

end Obc

namespace Bt

/-- struct bluetooth_session of bluetooth.c.  chan is whether session->io
(the GIOChannel, SDP or RFCOMM) is non-NULL; sdp is whether the
sdp_session_t is open (its socket is closed only by sdp_close, or by a
shutdown of the wrapping channel while close-on-unref holds); hasFunc is
whether a result callback was supplied; inRegistry is membership in the
process-wide sessions list. -/
structure BtSession where
  id : Nat
  port : Nat
  adapter : Option String
  sdp : Bool
  chan : Bool
  pendingCalls : List Nat
  hasFunc : Bool
  inRegistry : Bool
  freed : Bool
deriving Repr, DecidableEq

/-- Observable calls from bluetooth.c into its collaborators. -/
inductive Ev where
  /-- the caller's obc_transport_func result callback fired -/
  | cbFired (err : Option String)
  /-- ReleaseSession sent to the adapter -/
  | releaseSession (adapter : String)
  /-- a pending D-Bus call cancelled/unreffed (pending_req_finalize) -/
  | finalizeReq (r : Nat)
  /-- g_io_channel_shutdown: the channel's socket closed -/
  | chanShutdown
  /-- the session removed from the process-wide registry -/
  | registryRemove
  /-- bt_io_connect attempted on an RFCOMM channel -/
  | rfcommConnectAttempt (channel : Nat)
  /-- sdp_connect attempted -/
  | sdpConnectAttempt
  /-- sdp_close: the SDP socket closed -/
  | sdpClose
  /-- RequestSession sent to the adapter -/
  | requestSessionCall (adapter : String)
  /-- the session object was freed -/
  | freed
deriving Repr, DecidableEq

/-- g_slist_remove on the pending-call list. -/
def eraseNat : List Nat → Nat → List Nat
  | [], _ => []
  | x :: xs, r => if x = r then xs else x :: eraseNat xs r

/-- session_destroy: a no-op unless the session is still in the registry;
otherwise remove it, release the adapter session lease when one was
acquired, finalize every outstanding pending call, shut down and drop the
channel when present, and free the object.  The sdp_session_t is NOT
closed here. -/
def session_destroy (s : BtSession) : BtSession × List Ev :=
  if !s.inRegistry then (s, [])
  else
    let evRel := match s.adapter with
      | some a => [Ev.releaseSession a]
      | none => []
    let evFin := s.pendingCalls.map Ev.finalizeReq
    let evChan := if s.chan then [Ev.chanShutdown] else []
    ({ s with inRegistry := false, pendingCalls := [], chan := false,
              freed := true },
      Ev.registryRemove :: (evRel ++ evFin ++ (evChan ++ [Ev.freed])))

/-- The shared failure tail of manager_reply and adapter_reply: report the
error through the result callback when one was given, then destroy. -/
def bt_fail (s : BtSession) (msg : String) : BtSession × List Ev :=
  let evCb := if s.hasFunc then [Ev.cbFired (some msg)] else []
  let r := session_destroy s
  (r.1, evCb ++ r.2)

/-- session_connect of bluetooth.c: with a known channel go straight to
RFCOMM (rfcommOk: bt_io_connect initiation outcome); otherwise open the
SDP session (sdpOk: sdp_connect outcome). -/
def bt_session_connect (s : BtSession) (rfcommOk sdpOk : Bool) :
    Int × BtSession × List Ev :=
  if s.port != 0 then
    if rfcommOk then (0, { s with chan := true }, [Ev.rfcommConnectAttempt s.port])
    else (-22, s, [Ev.rfcommConnectAttempt s.port])
  else
    if sdpOk then (0, { s with sdp := true, chan := true }, [Ev.sdpConnectAttempt])
    else (-12, s, [Ev.sdpConnectAttempt])

/-- manager_reply: the DefaultAdapter/FindAdapter reply arrived
(replyIsErr: it was a D-Bus error; adapterPath: the parsed object path;
newReq: the id of a successfully sent RequestSession call, none when
sending failed).  The finished pending call is unlinked and finalized
first; every failure reports No adapter found and destroys. -/
def manager_reply (s : BtSession) (reqId : Nat) (replyIsErr : Bool)
    (adapterPath : Option String) (newReq : Option Nat) :
    BtSession × List Ev :=
  let s0 := { s with pendingCalls := eraseNat s.pendingCalls reqId }
  let pre := [Ev.finalizeReq reqId]
  if replyIsErr then
    let r := bt_fail s0 ("No adapter found")
    (r.1, pre ++ r.2)
  else match adapterPath with
    | some a =>
      let s1 := { s0 with adapter := some a }
      match newReq with
      | some r2 =>
        ({ s1 with pendingCalls := r2 :: s1.pendingCalls },
          pre ++ [Ev.requestSessionCall a])
      | none =>
        let r := bt_fail s1 ("No adapter found")
        (r.1, pre ++ r.2)
    | none =>
      let r := bt_fail s0 ("No adapter found")
      (r.1, pre ++ r.2)

/-- adapter_reply: the RequestSession reply arrived.  On a D-Bus error or
a failed session_connect, report Unable to request session and destroy. -/
def adapter_reply (s : BtSession) (reqId : Nat) (replyIsErr : Bool)
    (rfcommOk sdpOk : Bool) : BtSession × List Ev :=
  let s0 := { s with pendingCalls := eraseNat s.pendingCalls reqId }
  let pre := [Ev.finalizeReq reqId]
  if replyIsErr then
    let r := bt_fail s0 ("Unable to request session")
    (r.1, pre ++ r.2)
  else
    let rc := bt_session_connect s0 rfcommOk sdpOk
    if rc.1 < 0 then
      let r := bt_fail rc.2.1 ("Unable to request session")
      (r.1, pre ++ rc.2.2 ++ r.2)
    else (rc.2.1, pre ++ rc.2.2)

/-- The failed label of search_callback: shut the channel down when still
present, report Unable to find service record, destroy. -/
def searchFail (s : BtSession) : BtSession × List Ev :=
  let evChan := if s.chan then [Ev.chanShutdown] else []
  let s1 := { s with chan := false }
  let evCb := if s1.hasFunc then [Ev.cbFired (some ("Unable to find service record"))] else []
  let r := session_destroy s1
  (r.1, evChan ++ evCb ++ r.2)

/-- search_callback: the SDP response was parsed (parsedChannel: the first
RFCOMM channel found in the record stream, none when the status was bad
or no channel was present).  On a found channel the SDP channel wrapper is
dropped WITHOUT closing its socket (close-on-unref was cleared) and RFCOMM
is attempted: on initiation success the SDP socket is closed via
sdp_close; on initiation failure the failed label runs with session->io
already NULL, so neither the channel shutdown nor sdp_close ever touches
the SDP socket.  With no channel the failed label shuts the SDP channel
down (closing its socket). -/
def search_callback (s : BtSession) (parsedChannel : Option Nat)
    (rfcommOk : Bool) : BtSession × List Ev :=
  let ch := parsedChannel.getD 0
  if ch != 0 then
    let s1 := { s with port := ch, chan := false }
    if rfcommOk then
      ({ s1 with chan := true, sdp := false },
        [Ev.rfcommConnectAttempt ch, Ev.sdpClose])
    else
      let r := searchFail s1
      (r.1, Ev.rfcommConnectAttempt ch :: r.2)
  else
    searchFail s

/-- rfcomm_callback: the RFCOMM connect finished.  The result callback
fires with the delivered stream or error; on error the session is
destroyed. -/
def rfcomm_callback (s : BtSession) (err : Option String) :
    BtSession × List Ev :=
  let evCb := if s.hasFunc then [Ev.cbFired err] else []
  match err with
  | some _ =>
    let r := session_destroy s
    (r.1, evCb ++ r.2)
  | none => (s, evCb)

/-- A hexadecimal digit as accepted by the %x conversions of sscanf:
0-9 (codes 48-57), a-f (97-102), A-F (65-70). -/
def isHexDigit (c : Char) : Bool :=
  (48 ≤ c.toNat && c.toNat ≤ 57) || (97 ≤ c.toNat && c.toNat ≤ 102) ||
  (65 ≤ c.toNat && c.toNat ≤ 70)

/-- Value of a hexadecimal digit. -/
def hexVal (c : Char) : Nat :=
  if 48 ≤ c.toNat && c.toNat ≤ 57 then c.toNat - 48
  else if 97 ≤ c.toNat && c.toNat ≤ 102 then c.toNat - 87
  else c.toNat - 55

/-- Greedy scan of at most w further hexadecimal digits, accumulating the
value (the digits already consumed are in acc). -/
def scanHex : Nat → List Char → Nat → Nat × List Char
  | 0, cs, acc => (acc, cs)
  | _ + 1, [], acc => (acc, [])
  | w + 1, c :: cs, acc =>
    if isHexDigit c then scanHex w cs (acc * 16 + hexVal c)
    else (acc, c :: cs)

/-- One %wx item of sscanf: skip leading whitespace, then read one to w
hexadecimal digits greedily.  (The sign and 0x forms C additionally
accepts in a %x item are outside the inputs this development evaluates
and are not modelled.) -/
def scanHexItem (w : Nat) (cs : List Char) : Option (Nat × List Char) :=
  let cs1 := cs.dropWhile (fun c => c.isWhitespace)
  match cs1 with
  | c :: _ => if isHexDigit c then some (scanHex w cs1 0) else none
  | [] => none

/-- A literal character of the sscanf format: matches exactly itself. -/
def scanLit (c : Char) : List Char → Option (List Char)
  | x :: xs => if x = c then some xs else none
  | [] => none

/-- The sscanf format of bt_string2uuid, yielding the six parsed values
data0..data5. -/
def scanUUID (cs : List Char) :
    Option (Nat × Nat × Nat × Nat × Nat × Nat) := do
  let (d0, cs) ← scanHexItem 8 cs
  let cs ← scanLit '-' cs
  let (d1, cs) ← scanHexItem 4 cs
  let cs ← scanLit '-' cs
  let (d2, cs) ← scanHexItem 4 cs
  let cs ← scanLit '-' cs
  let (d3, cs) ← scanHexItem 4 cs
  let cs ← scanLit '-' cs
  let (d4, cs) ← scanHexItem 8 cs
  let (d5, _) ← scanHexItem 4 cs
  pure (d0, d1, d2, d3, d4, d5)

/-- Big-endian bytes of a 32-bit value: g_htonl then memcpy. -/
def be32 (n : Nat) : List Nat :=
  [n / 2 ^ 24 % 256, n / 2 ^ 16 % 256, n / 2 ^ 8 % 256, n % 256]

/-- Big-endian bytes of a 16-bit value: g_htons then memcpy. -/
def be16 (n : Nat) : List Nat :=
  [n / 2 ^ 8 % 256, n % 256]

/-- bt_string2uuid: scan the six groups; on a full six-conversion match,
produce the 16 network-order bytes of the 128-bit UUID; otherwise return
-EINVAL. -/
def bt_string2uuid (s : String) : Except Int (List Nat) :=
  match scanUUID s.data with
  | some (d0, d1, d2, d3, d4, d5) =>
    .ok (be32 d0 ++ be16 d1 ++ be16 d2 ++ be16 d3 ++ be32 d4 ++ be16 d5)
  | none => .error (-22)

/-- Value of a list of hexadecimal digits (most significant first). -/
def hexListVal (g : List Char) : Nat :=
  g.foldl (fun acc c => acc * 16 + hexVal c) 0

/-- The canonical 128-bit UUID string of the claim: five groups of
exactly 8, 4, 4, 4 and 12 hexadecimal digits joined by dashes. -/
def canonicalUUIDString (g0 g1 g2 g3 g4 : List Char) : String :=
  String.mk (g0 ++ '-' :: g1 ++ '-' :: g2 ++ '-' :: g3 ++ '-' :: g4)

/-- Split a character list into its dash-separated groups. -/
def splitGroups : List Char → List (List Char)
  | [] => [[]]
  | c :: cs =>
    let r := splitGroups cs
    if c = '-' then [] :: r
    else
      match r with
      | g :: gs => (c :: g) :: gs
      | [] => [[c]]

/-- Decidable check that a string is in the canonical 8-4-4-4-12 form. -/
def isCanonicalUUID (s : String) : Bool :=
  let gs := splitGroups s.data
  gs.map (fun g => g.length) == [8, 4, 4, 4, 12] &&
  gs.all (fun g => g.all isHexDigit)

/-- True exactly on result-callback events. -/
def isCbEv : Ev → Bool
  | .cbFired _ => true
  | _ => false

/-- What the failure policy of the transport connector promises after a
failed stage: registry removal, the object freed, release of the adapter
lease when one was held, finalization of every outstanding pending call,
and shutdown of the channel when one was open. -/
def teardownComplete (pre : BtSession) (evs : List Ev) (post : BtSession) :
    Prop :=
  Ev.registryRemove ∈ evs ∧
  post.freed = true ∧
  post.inRegistry = false ∧
  (∀ a, pre.adapter = some a → Ev.releaseSession a ∈ evs) ∧
  (∀ r, r ∈ pre.pendingCalls → Ev.finalizeReq r ∈ evs) ∧
  (pre.chan = true → Ev.chanShutdown ∈ evs)

end Bt

section Fixtures

/-- A session whose OBEX handshake has not completed (no GObex handle). -/
def sampleIdle : Obc.ObcSession :=
  { addr := 1, id := 0, refcount := 1, source := none, destination := "AA",
    driverService := "OPP", channel := 0, obex := false, agent := none,
    callback := none, owner := none, watch := 0, path := none, pending := [],
    transport := true, freed := false }

/-- A connected session: live OBEX handle, empty queue, no agent. -/
def sampleConnected : Obc.ObcSession :=
  { sampleIdle with obex := true, id := 4 }

/-- A connected session with one transfer already in flight (queue head)
and the ref that transfer holds. -/
def sampleBusy : Obc.ObcSession :=
  { sampleConnected with pending := [⟨1, none⟩], refcount := 2 }

end Fixtures

/-- Hexadecimal digits are not scanf whitespace. -/
theorem hexDigit_not_ws (c : Char) (h : Bt.isHexDigit c = true) :
    c.isWhitespace = false := by
  have h48 : 48 ≤ c.toNat := by
    simp only [Bt.isHexDigit, Bool.or_eq_true, Bool.and_eq_true,
      decide_eq_true_eq] at h
    rcases h with (⟨h1, _⟩ | ⟨h1, _⟩) | ⟨h1, _⟩ <;> omega
  cases hw : c.isWhitespace with
  | false => rfl
  | true =>
    exfalso
    have hc : ((c = ' ' ∨ c = '\t') ∨ c = '\x0d') ∨ c = '\n' := by
      simpa [Char.isWhitespace] using hw
    rcases hc with ((rfl | rfl) | rfl) | rfl <;> revert h48 <;> decide

/-- The greedy width-bounded scan consumes exactly a group of hexadecimal
digits whose length equals the width, whatever follows. -/
theorem scanHex_exact (g : List Char) :
    ∀ (rest : List Char) (acc : Nat), g.all Bt.isHexDigit = true →
    Bt.scanHex g.length (g ++ rest) acc =
      (g.foldl (fun a c => a * 16 + Bt.hexVal c) acc, rest) := by
  induction g with
  | nil => intro rest acc _; rfl
  | cons c cs ih =>
    intro rest acc hall
    simp only [List.all_cons, Bool.and_eq_true] at hall
    simp only [List.length_cons, List.cons_append, Bt.scanHex, hall.1,
      if_true, List.foldl_cons]
    exact ih rest (acc * 16 + Bt.hexVal c) hall.2

/-- One %wx item on input starting with a hex group of exactly the item
width: it yields the group's value and the unconsumed remainder. -/
theorem scanHexItem_exact (w : Nat) (g rest : List Char) (hw : g.length = w)
    (hne : g ≠ []) (hhex : g.all Bt.isHexDigit = true) :
    Bt.scanHexItem w (g ++ rest) = some (Bt.hexListVal g, rest) := by
  cases g with
  | nil => exact absurd rfl hne
  | cons c cs =>
    have hall := hhex
    simp only [List.all_cons, Bool.and_eq_true] at hall
    have hws : c.isWhitespace = false := hexDigit_not_ws c hall.1
    subst hw
    have hdrop : List.dropWhile (fun x => x.isWhitespace)
        (c :: (cs ++ rest)) = c :: (cs ++ rest) := by
      simp [List.dropWhile_cons, hws]
    have hsc := scanHex_exact (c :: cs) rest 0 hhex
    simp only [List.cons_append] at hsc
    simp only [Bt.scanHexItem, List.cons_append, hdrop, hall.1, if_true, hsc]
    rfl

/-- Finalization events never count as result-callback events. -/
theorem countP_isCb_map_finalize (l : List Nat) :
    (l.map Bt.Ev.finalizeReq).countP Bt.isCbEv = 0 := by
  induction l with
  | nil => rfl
  | cons a l ih => simp [List.countP_cons, Bt.isCbEv, ih]

/-- An element different from the erased one survives eraseNat. -/
theorem mem_eraseNat_of_ne (a r : Nat) (l : List Nat) (h : r ∈ l)
    (hne : r ≠ a) : r ∈ Bt.eraseNat l a := by
  induction l with
  | nil => cases h
  | cons x xs ih =>
    by_cases hx : x = a
    · simp only [Bt.eraseNat, if_pos hx]
      rcases List.mem_cons.mp h with rfl | hxs
      · exact absurd hx hne
      · exact hxs
    · simp only [Bt.eraseNat, if_neg hx]
      rcases List.mem_cons.mp h with rfl | hxs
      · exact List.mem_cons_self _ _
      · exact List.mem_cons_of_mem _ (ih hxs)

/-- The single-callback-and-teardown contract a failed transport stage
must honour: exactly one result-callback invocation, carrying the stated
non-empty error, followed by complete teardown. -/
def Bt.failureContract (s : Bt.BtSession) (msg : String)
    (out : Bt.BtSession × List Bt.Ev) : Prop :=
  out.2.countP Bt.isCbEv = 1 ∧
  Bt.Ev.cbFired (some msg) ∈ out.2 ∧
  msg ≠ "" ∧
  Bt.teardownComplete s out.2 out.1

/-- A teardown established for a suffix of the trace holds for the whole
trace. -/
theorem teardownComplete_append_left (pre : List Bt.Ev) (s : Bt.BtSession)
    (evs : List Bt.Ev) (post : Bt.BtSession)
    (h : Bt.teardownComplete s evs post) :
    Bt.teardownComplete s (pre ++ evs) post := by
  obtain ⟨h1, h2, h3, h4, h5, h6⟩ := h
  exact ⟨List.mem_append_right _ h1, h2, h3,
    fun a ha => List.mem_append_right _ (h4 a ha),
    fun r hr => List.mem_append_right _ (h5 r hr),
    fun hc => List.mem_append_right _ (h6 hc)⟩

/-- A teardown established after the failing pending call was unlinked
extends to the original pending-call list, given that call was finalized
somewhere in the trace. -/
theorem teardownComplete_erase_lift (s : Bt.BtSession) (reqId : Nat)
    (evs : List Bt.Ev) (post : Bt.BtSession)
    (hfin : Bt.Ev.finalizeReq reqId ∈ evs)
    (h : Bt.teardownComplete
      { s with pendingCalls := Bt.eraseNat s.pendingCalls reqId } evs post) :
    Bt.teardownComplete s evs post := by
  obtain ⟨h1, h2, h3, h4, h5, h6⟩ := h
  refine ⟨h1, h2, h3, h4, ?_, h6⟩
  intro r hr
  by_cases hre : r = reqId
  · subst hre; exact hfin
  · exact h5 r (mem_eraseNat_of_ne reqId r _ hr hre)

/-- bt_fail honours the failure contract (for its own non-empty message)
whenever a callback was supplied and the session is still registered. -/
theorem bt_fail_spec (s : Bt.BtSession) (msg : String) (hm : msg ≠ "")
    (hf : s.hasFunc = true) (hreg : s.inRegistry = true) :
    Bt.failureContract s msg (Bt.bt_fail s msg) := by
  have hdest : Bt.session_destroy s =
      ({ s with inRegistry := false, pendingCalls := [], chan := false,
                freed := true },
        Bt.Ev.registryRemove ::
          ((match s.adapter with
            | some a => [Bt.Ev.releaseSession a]
            | none => []) ++
           s.pendingCalls.map Bt.Ev.finalizeReq ++
           ((if s.chan then [Bt.Ev.chanShutdown] else []) ++
            [Bt.Ev.freed]))) := by
    simp [Bt.session_destroy, hreg]
  refine ⟨?_, ?_, hm, ?_, ?_, ?_, ?_, ?_, ?_⟩
  · rcases ha : s.adapter with _ | a <;> rcases hc : s.chan <;>
      simp [Bt.bt_fail, hdest, hf, ha, hc, Bt.isCbEv, List.countP_cons,
        List.countP_append, countP_isCb_map_finalize]
  · simp [Bt.bt_fail, hdest, hf]
  · simp [Bt.bt_fail, hdest, hf]
  · simp [Bt.bt_fail, hdest, hf]
  · simp [Bt.bt_fail, hdest, hf]
  · intro a ha
    simp [Bt.bt_fail, hdest, hf, ha]
  · intro r hr
    have h1 : Bt.Ev.finalizeReq r ∈ s.pendingCalls.map Bt.Ev.finalizeReq :=
      List.mem_map_of_mem _ hr
    simp only [Bt.bt_fail, hdest, hf, if_pos]
    simp only [List.mem_append, List.mem_cons, List.mem_singleton]
    simp at h1 ⊢
    tauto
  · intro hc
    simp [Bt.bt_fail, hdest, hf, hc]

/-- The failed-label path of the SDP search honours the failure contract
(the SDP channel itself is shut down by the failed label, before
destruction). -/
theorem searchFail_spec (s : Bt.BtSession) (hf : s.hasFunc = true)
    (hreg : s.inRegistry = true) :
    Bt.failureContract s ("Unable to find service record")
      (Bt.searchFail s) := by
  have hspec := bt_fail_spec { s with chan := false }
    ("Unable to find service record") (by decide) hf hreg
  obtain ⟨h1, h2, h3, h4⟩ := hspec
  have hsf : Bt.searchFail s =
      ((Bt.bt_fail { s with chan := false }
          ("Unable to find service record")).1,
        (if s.chan then [Bt.Ev.chanShutdown] else []) ++
          (Bt.bt_fail { s with chan := false }
            ("Unable to find service record")).2) := by
    simp [Bt.searchFail, Bt.bt_fail]
  rw [hsf]
  refine ⟨?_, List.mem_append_right _ h2, h3, ?_⟩
  · rcases hc : s.chan <;>
      simp [hc, List.countP_append, List.countP_cons, Bt.isCbEv, h1]
  · obtain ⟨t1, t2, t3, t4, t5, t6⟩ := h4
    refine ⟨List.mem_append_right _ t1, t2, t3,
      fun a ha => List.mem_append_right _ (t4 a ha),
      fun r hr => List.mem_append_right _ (t5 r hr),
      fun hc => ?_⟩
    rw [hc]
    exact List.mem_append_left _ (by simp)

/-- With the DefaultAdapter/FindAdapter reply being a D-Bus error,
manager_reply honours the failure contract. -/
theorem manager_reply_fail_spec (s : Bt.BtSession) (reqId : Nat)
    (hf : s.hasFunc = true) (hreg : s.inRegistry = true) :
    Bt.failureContract s ("No adapter found")
      (Bt.manager_reply s reqId true none none) := by
  have hspec := bt_fail_spec
    { s with pendingCalls := Bt.eraseNat s.pendingCalls reqId }
    ("No adapter found") (by decide) hf hreg
  obtain ⟨h1, h2, h3, h4⟩ := hspec
  have hm : Bt.manager_reply s reqId true none none =
      ((Bt.bt_fail { s with pendingCalls := Bt.eraseNat s.pendingCalls reqId }
          ("No adapter found")).1,
        [Bt.Ev.finalizeReq reqId] ++
          (Bt.bt_fail
            { s with pendingCalls := Bt.eraseNat s.pendingCalls reqId }
            ("No adapter found")).2) := by
    simp [Bt.manager_reply]
  rw [hm]
  refine ⟨?_, List.mem_append_right _ h2, h3, ?_⟩
  · simp [List.countP_append, List.countP_cons, Bt.isCbEv, h1]
  · exact teardownComplete_erase_lift s reqId _ _ (by simp)
      (teardownComplete_append_left _ _ _ _ h4)

/-- With the RequestSession reply being a D-Bus error, adapter_reply
honours the failure contract. -/
theorem adapter_reply_fail_spec (s : Bt.BtSession) (reqId : Nat)
    (rok sok : Bool) (hf : s.hasFunc = true) (hreg : s.inRegistry = true) :
    Bt.failureContract s ("Unable to request session")
      (Bt.adapter_reply s reqId true rok sok) := by
  have hspec := bt_fail_spec
    { s with pendingCalls := Bt.eraseNat s.pendingCalls reqId }
    ("Unable to request session") (by decide) hf hreg
  obtain ⟨h1, h2, h3, h4⟩ := hspec
  have hm : Bt.adapter_reply s reqId true rok sok =
      ((Bt.bt_fail { s with pendingCalls := Bt.eraseNat s.pendingCalls reqId }
          ("Unable to request session")).1,
        [Bt.Ev.finalizeReq reqId] ++
          (Bt.bt_fail
            { s with pendingCalls := Bt.eraseNat s.pendingCalls reqId }
            ("Unable to request session")).2) := by
    simp [Bt.adapter_reply]
  rw [hm]
  refine ⟨?_, List.mem_append_right _ h2, h3, ?_⟩
  · simp [List.countP_append, List.countP_cons, Bt.isCbEv, h1]
  · exact teardownComplete_erase_lift s reqId _ _ (by simp)
      (teardownComplete_append_left _ _ _ _ h4)

/-- C6 (amended): a failure in the adapter lookup reply, the
RequestSession reply, the SDP service search (no usable channel in the
response), or the asynchronous RFCOMM connect results in exactly one
result-callback invocation carrying a non-empty error, followed by
teardown: registry removal, release of a held adapter lease,
finalization of every outstanding pending call, and closure of the open
channel.  (The teardown exception — the SDP socket escaping closure when
RFCOMM initiation fails right after channel resolution — is the
counterexample.) -/
theorem c6_stage_failure_contract :
    (∀ (s : Bt.BtSession) (reqId : Nat),
      s.hasFunc = true → s.inRegistry = true →
      Bt.failureContract s ("No adapter found")
        (Bt.manager_reply s reqId true none none)) ∧
    (∀ (s : Bt.BtSession) (reqId : Nat) (rok sok : Bool),
      s.hasFunc = true → s.inRegistry = true →
      Bt.failureContract s ("Unable to request session")
        (Bt.adapter_reply s reqId true rok sok)) ∧
    (∀ (s : Bt.BtSession) (rok : Bool),
      s.hasFunc = true → s.inRegistry = true →
      Bt.failureContract s ("Unable to find service record")
        (Bt.search_callback s none rok)) ∧
    (∀ (s : Bt.BtSession) (m : String),
      s.hasFunc = true → s.inRegistry = true → m ≠ "" →
      Bt.failureContract s m (Bt.rfcomm_callback s (some m))) := by
  refine ⟨fun s reqId hf hreg => manager_reply_fail_spec s reqId hf hreg,
    fun s reqId rok sok hf hreg =>
      adapter_reply_fail_spec s reqId rok sok hf hreg,
    fun s rok hf hreg => ?_,
    fun s m hf hreg hm => ?_⟩
  · have := searchFail_spec s hf hreg
    simpa [Bt.search_callback] using this
  · have hspec := bt_fail_spec s m hm hf hreg
    obtain ⟨h1, h2, h3, h4⟩ := hspec
    have hr : Bt.rfcomm_callback s (some m) = Bt.bt_fail s m := by
      simp [Bt.rfcomm_callback, Bt.bt_fail, hf]
    rw [hr]
    exact ⟨h1, h2, h3, h4⟩

/-- The transport session of the C6 counterexample: SDP resolution phase,
adapter lease held, channel wrapping the SDP socket open. -/
def btMidSdp : Bt.BtSession :=
  { id := 1, port := 0, adapter := some ("hci0"), sdp := true, chan := true,
    pendingCalls := [], hasFunc := true, inRegistry := true, freed := false }

/-- C6 (counterexample): when the SDP search resolves channel 3 but the
RFCOMM connect INITIATION fails, the failing stage fires the callback
exactly once and destroys the session — but the SDP socket is never
closed: the channel wrapper was dropped with close-on-unref cleared
before the RFCOMM attempt, and neither sdp_close nor a channel shutdown
ever runs, so the teardown is not full (the socket survives the
session). -/
theorem c6_counterexample :
    (Bt.search_callback btMidSdp (some 3) false).2.countP Bt.isCbEv = 1 ∧
    (Bt.search_callback btMidSdp (some 3) false).1.freed = true ∧
    (Bt.search_callback btMidSdp (some 3) false).1.sdp = true ∧
    Bt.Ev.sdpClose ∉ (Bt.search_callback btMidSdp (some 3) false).2 ∧
    Bt.Ev.chanShutdown ∉ (Bt.search_callback btMidSdp (some 3) false).2 := by
  decide

/-- Witness for the amended C6 at concrete sessions for all four
stages. -/
theorem c6_witness :
    Bt.failureContract btMidSdp ("No adapter found")
      (Bt.manager_reply btMidSdp 5 true none none) ∧
    Bt.failureContract btMidSdp ("Unable to request session")
      (Bt.adapter_reply btMidSdp 5 true true true) ∧
    Bt.failureContract btMidSdp ("Unable to find service record")
      (Bt.search_callback btMidSdp none true) ∧
    Bt.failureContract btMidSdp ("Connection refused")
      (Bt.rfcomm_callback btMidSdp (some ("Connection refused"))) :=
  ⟨c6_stage_failure_contract.1 btMidSdp 5 rfl rfl,
   c6_stage_failure_contract.2.1 btMidSdp 5 true true rfl rfl,
   c6_stage_failure_contract.2.2.1 btMidSdp true rfl rfl,
   c6_stage_failure_contract.2.2.2 btMidSdp ("Connection refused") rfl rfl
     (by decide)⟩

/-- Decidable equality for parse results. -/
instance exceptDecEq {e a : Type} [DecidableEq e] [DecidableEq a] :
    DecidableEq (Except e a) := fun x y =>
  match x, y with
  | .ok u, .ok v =>
    if h : u = v then .isTrue (by rw [h])
    else .isFalse (fun hc => by cases hc; exact h rfl)
  | .ok _, .error _ => .isFalse (fun hc => by cases hc)
  | .error _, .ok _ => .isFalse (fun hc => by cases hc)
  | .error u, .error v =>
    if h : u = v then .isTrue (by rw [h])
    else .isFalse (fun hc => by cases hc; exact h rfl)

/-- C8 (amended): on every string in the canonical 8-4-4-4-12 hex form,
bt_string2uuid succeeds and yields exactly the 16 network-order bytes of
the five groups (final group split 8+4 by the two width-bounded
conversions); on strings the scanf pattern fails to match it returns
-EINVAL — but the pattern is more liberal than the canonical form
(shorter groups, a final group of nine or more digits and trailing
characters are also accepted), which the counterexample shows. -/
theorem c8_canonical_uuid_parses (g0 g1 g2 g3 g4 : List Char)
    (h0 : g0.length = 8) (h1 : g1.length = 4) (h2 : g2.length = 4)
    (h3 : g3.length = 4) (h4 : g4.length = 12)
    (a0 : g0.all Bt.isHexDigit = true) (a1 : g1.all Bt.isHexDigit = true)
    (a2 : g2.all Bt.isHexDigit = true) (a3 : g3.all Bt.isHexDigit = true)
    (a4 : g4.all Bt.isHexDigit = true) :
    Bt.bt_string2uuid (Bt.canonicalUUIDString g0 g1 g2 g3 g4) =
      .ok (Bt.be32 (Bt.hexListVal g0) ++ Bt.be16 (Bt.hexListVal g1) ++
           Bt.be16 (Bt.hexListVal g2) ++ Bt.be16 (Bt.hexListVal g3) ++
           Bt.be32 (Bt.hexListVal (g4.take 8)) ++
           Bt.be16 (Bt.hexListVal (g4.drop 8))) := by
  have hne : ∀ (g : List Char) (n : Nat), g.length = n → n ≠ 0 → g ≠ [] := by
    intro g n hg hn hnil
    rw [hnil] at hg
    simp only [List.length_nil] at hg
    exact hn hg.symm
  have htake : (g4.take 8).length = 8 := by
    rw [List.length_take, h4]; decide
  have hdrop : (g4.drop 8).length = 4 := by
    rw [List.length_drop, h4]
  have hthx : (g4.take 8).all Bt.isHexDigit = true := by
    rw [List.all_eq_true] at a4 ⊢
    exact fun x hx => a4 x (List.take_subset _ _ hx)
  have hdhx : (g4.drop 8).all Bt.isHexDigit = true := by
    rw [List.all_eq_true] at a4 ⊢
    exact fun x hx => a4 x (List.drop_subset _ _ hx)
  have s0 := scanHexItem_exact 8 g0
    ('-' :: (g1 ++ '-' :: (g2 ++ '-' :: (g3 ++ '-' :: g4)))) h0
    (hne g0 8 h0 (by omega)) a0
  have s1 := scanHexItem_exact 4 g1
    ('-' :: (g2 ++ '-' :: (g3 ++ '-' :: g4))) h1
    (hne g1 4 h1 (by omega)) a1
  have s2 := scanHexItem_exact 4 g2 ('-' :: (g3 ++ '-' :: g4)) h2
    (hne g2 4 h2 (by omega)) a2
  have s3 := scanHexItem_exact 4 g3 ('-' :: g4) h3
    (hne g3 4 h3 (by omega)) a3
  have s4 : Bt.scanHexItem 8 g4 =
      some (Bt.hexListVal (g4.take 8), g4.drop 8) := by
    have := scanHexItem_exact 8 (g4.take 8) (g4.drop 8) htake
      (hne _ 8 htake (by omega)) hthx
    rwa [List.take_append_drop] at this
  have s5 : Bt.scanHexItem 4 (g4.drop 8) =
      some (Bt.hexListVal (g4.drop 8), []) := by
    have := scanHexItem_exact 4 (g4.drop 8) [] hdrop
      (hne _ 4 hdrop (by omega)) hdhx
    rwa [List.append_nil] at this
  have hdata : (Bt.canonicalUUIDString g0 g1 g2 g3 g4).data =
      g0 ++ '-' :: (g1 ++ '-' :: (g2 ++ '-' :: (g3 ++ '-' :: g4))) := by
    simp [Bt.canonicalUUIDString, List.cons_append, List.append_assoc]
  simp only [Bt.bt_string2uuid, hdata, Bt.scanUUID, s0, s1, s2, s3, s4, s5,
    Bt.scanLit, Option.bind_eq_bind, Option.some_bind, if_true]

/-- C8 (counterexample): the string 0-0-0-0-000000000 is not in the
canonical 8-4-4-4-12 form, yet bt_string2uuid accepts it (the scanf
conversions take one digit per short group and split the nine-digit final
group 8+1) and returns the zero UUID instead of -EINVAL. -/
theorem c8_counterexample :
    Bt.isCanonicalUUID ("0-0-0-0-000000000") = false ∧
    Bt.bt_string2uuid ("0-0-0-0-000000000") =
      .ok [0, 0, 0, 0, 0, 0, 0, 0, 0, 0, 0, 0, 0, 0, 0, 0] ∧
    Bt.bt_string2uuid ("0-0-0-0-000000000") ≠ .error (-22) := by
  decide

/-- Witness for the amended C8 at a concrete canonical UUID string. -/
theorem c8_witness :
    Bt.bt_string2uuid (Bt.canonicalUUIDString
      ['0', '0', '0', '0', '1', '1', '0', 'A'] ['0', '0', '0', '0']
      ['1', '0', '0', '0'] ['8', '0', '0', '0']
      ['0', '0', '8', '0', '5', 'F', '9', 'B', '3', '4', 'F', 'B']) =
      .ok (Bt.be32 (Bt.hexListVal ['0', '0', '0', '0', '1', '1', '0', 'A']) ++
           Bt.be16 (Bt.hexListVal ['0', '0', '0', '0']) ++
           Bt.be16 (Bt.hexListVal ['1', '0', '0', '0']) ++
           Bt.be16 (Bt.hexListVal ['8', '0', '0', '0']) ++
           Bt.be32 (Bt.hexListVal
             (['0', '0', '8', '0', '5', 'F', '9', 'B', '3', '4', 'F',
               'B'].take 8)) ++
           Bt.be16 (Bt.hexListVal
             (['0', '0', '8', '0', '5', 'F', '9', 'B', '3', '4', 'F',
               'B'].drop 8))) :=
  c8_canonical_uuid_parses
    ['0', '0', '0', '0', '1', '1', '0', 'A'] ['0', '0', '0', '0']
    ['1', '0', '0', '0'] ['8', '0', '0', '0']
    ['0', '0', '8', '0', '5', 'F', '9', 'B', '3', '4', 'F', 'B']
    rfl rfl rfl rfl rfl (by decide) (by decide) (by decide) (by decide)
    (by decide)

/-- C9: each of obc_session_get, obc_session_send, obc_session_pull and
obc_session_put, called on a session with no live OBEX handle, returns
-ENOTCONN immediately and leaves the session state (pending queue, stored
callback, agent binding) unchanged, kicking off no authorization and no
external call. -/
theorem c9_not_connected_rejected (s : Obc.ObcSession) (h : s.obex = false)
    (t : Obc.Transfer) (func : Option Obc.Callback) (registerOk : Bool)
    (setFileErr agentReqErr : Int) :
    Obc.obc_session_get s t func registerOk agentReqErr =
      ⟨-Obc.ENOTCONN, s, [], []⟩ ∧
    Obc.obc_session_send s t registerOk setFileErr agentReqErr =
      ⟨-Obc.ENOTCONN, s, [], []⟩ ∧
    Obc.obc_session_pull s t func registerOk agentReqErr =
      ⟨-Obc.ENOTCONN, s, [], []⟩ ∧
    Obc.obc_session_put s t registerOk agentReqErr =
      ⟨-Obc.ENOTCONN, s, [], []⟩ := by
  simp [Obc.obc_session_get, Obc.obc_session_send, Obc.obc_session_pull,
        Obc.obc_session_put, h]

/-- Witness for C9 at a concrete disconnected session. -/
theorem c9_witness :
    Obc.obc_session_get sampleIdle ⟨1, none⟩ none true 0 =
      ⟨-Obc.ENOTCONN, sampleIdle, [], []⟩ ∧
    Obc.obc_session_send sampleIdle ⟨1, none⟩ true 0 0 =
      ⟨-Obc.ENOTCONN, sampleIdle, [], []⟩ ∧
    Obc.obc_session_pull sampleIdle ⟨1, none⟩ none true 0 =
      ⟨-Obc.ENOTCONN, sampleIdle, [], []⟩ ∧
    Obc.obc_session_put sampleIdle ⟨1, none⟩ true 0 =
      ⟨-Obc.ENOTCONN, sampleIdle, [], []⟩ :=
  c9_not_connected_rejected sampleIdle rfl ⟨1, none⟩ none true 0 0

/-- C2 (code bug, evaluation): obc_session_put never appends its transfer
to the pending queue, so with a raw-buffer PUT already requested and being
streamed (transfer 1 started, not terminated), a second obc_session_put is
accepted: it returns 0, not -EISCONN, and registers and authorizes a
second transfer. -/
theorem c2_second_put_accepted_eval :
    (Obc.obc_session_put sampleConnected ⟨1, none⟩ true 0).ret = 0 ∧
    (Obc.obc_session_put sampleConnected ⟨1, none⟩ true 0).auths =
      [⟨.put, ⟨1, none⟩, false⟩] ∧
    (Obc.obc_session_put sampleConnected ⟨1, none⟩ true 0).state.pending = [] ∧
    (Obc.deliver_auth_approval
      (Obc.obc_session_put sampleConnected ⟨1, none⟩ true 0).state
      ⟨.put, ⟨1, none⟩, false⟩ 0 0).events = [Obc.Ev.transferPutStart 1] ∧
    (Obc.obc_session_put
      (Obc.deliver_auth_approval
        (Obc.obc_session_put sampleConnected ⟨1, none⟩ true 0).state
        ⟨.put, ⟨1, none⟩, false⟩ 0 0).state ⟨2, none⟩ true 0).ret = 0 ∧
    (Obc.obc_session_put
      (Obc.deliver_auth_approval
        (Obc.obc_session_put sampleConnected ⟨1, none⟩ true 0).state
        ⟨.put, ⟨1, none⟩, false⟩ 0 0).state ⟨2, none⟩ true 0).ret ≠
      -Obc.EISCONN ∧
    (Obc.obc_session_put
      (Obc.deliver_auth_approval
        (Obc.obc_session_put sampleConnected ⟨1, none⟩ true 0).state
        ⟨.put, ⟨1, none⟩, false⟩ 0 0).state ⟨2, none⟩ true 0).auths =
      [⟨.put, ⟨2, none⟩, false⟩] := by
  decide

/-- C1 (counterexample): obc_session_get called on a session whose queue
already holds an in-flight transfer (head 1) kicks off authorization for
the new transfer 2 at once, and delivery of the (trivially granted,
idle-deferred) authorization invokes the get-start entry point of
transfer 2 while transfer 1 is still the queue head — the start entry
point is NOT withheld until the new transfer becomes the head. -/
theorem c1_counterexample :
    (Obc.obc_session_get sampleBusy ⟨2, none⟩ none true 0).ret = 0 ∧
    (Obc.obc_session_get sampleBusy ⟨2, none⟩ none true 0).state.pending =
      [⟨1, none⟩, ⟨2, none⟩] ∧
    (Obc.obc_session_get sampleBusy ⟨2, none⟩ none true 0).auths =
      [⟨.get, ⟨2, none⟩, false⟩] ∧
    (Obc.deliver_auth_approval
      (Obc.obc_session_get sampleBusy ⟨2, none⟩ none true 0).state
      ⟨.get, ⟨2, none⟩, false⟩ 0 0).events = [Obc.Ev.transferGetStart 2] ∧
    (Obc.deliver_auth_approval
      (Obc.obc_session_get sampleBusy ⟨2, none⟩ none true 0).state
      ⟨.get, ⟨2, none⟩, false⟩ 0 0).state.pending.head? = some ⟨1, none⟩ := by
  decide

/-- C1 (amended): the queue-head discipline holds for the PUT/SEND path —
obc_session_send called while the queue is non-empty appends the transfer
with no authorization and no start — while obc_session_get kicks off
authorization for its transfer immediately even when the queue is
non-empty. -/
theorem c1_send_queues_get_dispatches (s : Obc.ObcSession) (t : Obc.Transfer)
    (func : Option Obc.Callback) (hobex : s.obex = true)
    (hpend : s.pending ≠ []) :
    Obc.obc_session_send s t true 0 0 =
      ⟨0, Obc.obc_session_add_transfer s t, [], []⟩ ∧
    (Obc.obc_session_get s t func true 0).ret = 0 ∧
    (Obc.obc_session_get s t func true 0).auths.map (fun o => o.fn) =
      [.get] ∧
    (Obc.obc_session_get s t func true 0).auths.map (fun o => o.transfer) =
      [t] := by
  have hne : s.pending.isEmpty = false := by
    cases hp : s.pending with
    | nil => exact absurd hp hpend
    | cons a l => simp [List.isEmpty]
  constructor
  · simp [Obc.obc_session_send, hobex, hne]
  · by_cases hag : (s.agent.isNone || t.tpath.isNone) = true
    · cases func <;>
        simp [Obc.obc_session_get, Obc.session_request, hobex, hag]
    · cases func <;>
        simp [Obc.obc_session_get, Obc.session_request, hobex, hag]

/-- A connected session with a stored completion callback and two queued
transfers (head in flight). -/
def sampleWithCallback : Obc.ObcSession :=
  { sampleConnected with
    callback := some ⟨7⟩,
    pending := [⟨1, none⟩, ⟨2, none⟩], refcount := 3 }

/-- C3 (counterexample): with a stored completion Callback, terminating
the in-flight head leaves transfer 2 at the head of a non-empty queue but
issues NO authorization for it — session_request is never entered and no
put-start can follow; the termination path only fires the stored
callback and unlinks the dead transfer. -/
theorem c3_counterexample :
    (Obc.session_terminate_transfer sampleWithCallback ⟨1, none⟩ none 0).state.pending =
      [⟨2, none⟩] ∧
    (Obc.session_terminate_transfer sampleWithCallback ⟨1, none⟩ none 0).auths = [] ∧
    (Obc.session_terminate_transfer sampleWithCallback ⟨1, none⟩ none 0).events =
      [Obc.Ev.callbackFired none, Obc.Ev.transferUnregister 1] ∧
    Obc.Ev.sessionRequested 2 ∉
      (Obc.session_terminate_transfer sampleWithCallback ⟨1, none⟩ none 0).events := by
  decide

/-- C3 (amended): the termination path advances the queue only when the
session has NO stored completion Callback: then the dead transfer is
unlinked, session_request is issued for the new head with the put-start
continuation, and delivering the granted authorization invokes the head's
put-start entry point. -/
theorem c3_redispatch_without_callback (s : Obc.ObcSession)
    (t tnext : Obc.Transfer) (rest : List Obc.Transfer) (gerr : Option String)
    (hcb : s.callback = none) (hpend : s.pending = t :: tnext :: rest)
    (hrc : 2 ≤ s.refcount) :
    (Obc.session_terminate_transfer s t gerr 0).state.pending =
      tnext :: rest ∧
    (Obc.session_terminate_transfer s t gerr 0).auths.map (fun o => o.fn) =
      [.put] ∧
    (Obc.session_terminate_transfer s t gerr 0).auths.map
      (fun o => o.transfer) = [tnext] ∧
    Obc.Ev.sessionRequested tnext.tid ∈
      (Obc.session_terminate_transfer s t gerr 0).events ∧
    (∀ (s2 : Obc.ObcSession) (via : Bool),
      Obc.deliver_auth_approval s2 ⟨.put, tnext, via⟩ 0 0 =
        ⟨0, s2, [], [Obc.Ev.transferPutStart tnext.tid]⟩) := by
  have h1 : Obc.eraseTransfer s.pending t = tnext :: rest := by
    rw [hpend]; simp [Obc.eraseTransfer]
  have h2 : s.refcount + 1 - 1 ≠ 0 := by omega
  have h3 : s.refcount - 1 ≠ 0 := by omega
  refine ⟨?_, ?_, ?_, ?_, ?_⟩ <;>
    first
    | (intro s2 via
       simp [Obc.deliver_auth_approval, Obc.session_prepare_put])
    | (simp only [Obc.session_terminate_transfer, hcb,
        Obc.obc_session_ref, Obc.obc_session_remove_transfer,
        Obc.obc_session_unref, h1, h2, h3, if_neg]
       by_cases hag : (s.agent.isNone || tnext.tpath.isNone) = true <;>
         simp [Obc.session_request, hag, Nat.add_sub_cancel, h3])

/-- Witness for the amended C3 at a concrete callback-free session. -/
theorem c3_witness :
    (Obc.session_terminate_transfer
      { sampleConnected with pending := [⟨1, none⟩, ⟨2, none⟩], refcount := 3 }
      ⟨1, none⟩ none 0).state.pending = [⟨2, none⟩] ∧
    (Obc.session_terminate_transfer
      { sampleConnected with pending := [⟨1, none⟩, ⟨2, none⟩], refcount := 3 }
      ⟨1, none⟩ none 0).auths.map (fun o => o.fn) = [.put] ∧
    (Obc.session_terminate_transfer
      { sampleConnected with pending := [⟨1, none⟩, ⟨2, none⟩], refcount := 3 }
      ⟨1, none⟩ none 0).auths.map (fun o => o.transfer) = [⟨2, none⟩] ∧
    Obc.Ev.sessionRequested 2 ∈
      (Obc.session_terminate_transfer
        { sampleConnected with pending := [⟨1, none⟩, ⟨2, none⟩], refcount := 3 }
        ⟨1, none⟩ none 0).events ∧
    (∀ (s2 : Obc.ObcSession) (via : Bool),
      Obc.deliver_auth_approval s2 ⟨.put, ⟨2, none⟩, via⟩ 0 0 =
        ⟨0, s2, [], [Obc.Ev.transferPutStart 2]⟩) :=
  c3_redispatch_without_callback
    { sampleConnected with pending := [⟨1, none⟩, ⟨2, none⟩], refcount := 3 }
    ⟨1, none⟩ ⟨2, none⟩ [] none rfl rfl (by decide)

/-- Removing the snapshot of the pending list empties the queue, drops
one ref per transfer and unregisters each exactly once (no free occurs
while more refs than queued transfers are held). -/
theorem shutdownRemoveAll_self (l : List Obc.Transfer) :
    ∀ s : Obc.ObcSession, s.pending = l → l.length < s.refcount →
    Obc.shutdownRemoveAll s l =
      ({ s with pending := [], refcount := s.refcount - l.length },
        l.map (fun t => Obc.Ev.transferUnregister t.tid)) := by
  induction l with
  | nil =>
    intro s hp _
    obtain ⟨a1, a2, rc, a4, a5, a6, a7, a8, a9, a10, a11, a12, pa, pend, tr, fr⟩ := s
    dsimp only at hp ⊢
    subst hp
    simp [Obc.shutdownRemoveAll]
  | cons t ts ih =>
    intro s hp hlen
    obtain ⟨a1, a2, rc, a4, a5, a6, a7, a8, a9, a10, a11, a12, pa, pend, tr, fr⟩ := s
    dsimp only at hp hlen ⊢
    subst hp
    simp only [List.length_cons] at hlen
    have hrc : rc - 1 ≠ 0 := by omega
    have hstep : Obc.obc_session_remove_transfer
        ⟨a1, a2, rc, a4, a5, a6, a7, a8, a9, a10, a11, a12, pa, t :: ts, tr, fr⟩ t =
        (⟨a1, a2, rc - 1, a4, a5, a6, a7, a8, a9, a10, a11, a12, pa, ts, tr, fr⟩,
          [Obc.Ev.transferUnregister t.tid]) := by
      simp [Obc.obc_session_remove_transfer, Obc.obc_session_unref,
        Obc.eraseTransfer, hrc]
    have ihs := ih
      ⟨a1, a2, rc - 1, a4, a5, a6, a7, a8, a9, a10, a11, a12, pa, ts, tr, fr⟩
      rfl (by dsimp only; omega)
    simp only [Obc.shutdownRemoveAll, hstep, ihs, List.map_cons,
      List.length_cons, List.singleton_append]
    rw [show rc - 1 - ts.length = rc - (ts.length + 1) by omega]

/-- Full behaviour of obc_session_shutdown on a live session holding more
refs than queued transfers: the queue empties (each transfer unregistered
once), the registered path is retracted, the transport is disconnected
and the id zeroed, and the session survives with one ref dropped per
removed transfer. -/
theorem shutdown_spec (s : Obc.ObcSession)
    (h : s.pending.length < s.refcount) (htr : s.transport = true) :
    Obc.obc_session_shutdown s =
      ({ s with pending := [], path := none, id := 0,
                refcount := s.refcount - s.pending.length },
        s.pending.map (fun t => Obc.Ev.transferUnregister t.tid) ++
        ((match s.path with
          | some p => [Obc.Ev.dbusUnregister p]
          | none => []) ++
         (if s.id != 0 then [Obc.Ev.transportDisconnect s.id] else []))) := by
  obtain ⟨a1, a2, rc, a4, a5, a6, a7, a8, a9, a10, a11, a12, pa, pend, tr, fr⟩ := s
  dsimp only at h htr ⊢
  subst htr
  have hr := shutdownRemoveAll_self pend
    ⟨a1, a2, rc + 1, a4, a5, a6, a7, a8, a9, a10, a11, a12, pa, pend, true, fr⟩
    rfl (by dsimp only; omega)
  have hrc2 : rc + 1 - pend.length - 1 ≠ 0 := by omega
  have hrc3 : rc + 1 - pend.length - 1 = rc - pend.length := by omega
  have hrc4 : rc - pend.length ≠ 0 := by omega
  have hrc5 : ¬(rc - pend.length = 0) := hrc4
  cases pa with
  | none =>
    by_cases hid : a2 = 0
    · subst hid
      simp [Obc.obc_session_shutdown, Obc.obc_session_ref, hr,
        Obc.obc_session_unref, hrc2, hrc3, hrc4]
    · have hid2 : (a2 != 0) = true := by simpa using hid
      simp [Obc.obc_session_shutdown, Obc.obc_session_ref, hr,
        Obc.obc_session_unref, hid2, hrc2, hrc3, hrc4]
  | some p =>
    by_cases hid : a2 = 0
    · subst hid
      simp [Obc.obc_session_shutdown, Obc.obc_session_ref, hr,
        Obc.session_unregistered, Obc.obc_session_unref, hrc2, hrc3, hrc4]
    · have hid2 : (a2 != 0) = true := by simpa using hid
      simp [Obc.obc_session_shutdown, Obc.obc_session_ref, hr,
        Obc.session_unregistered, Obc.obc_session_unref, hid2, hrc2, hrc3, hrc4]

/-- C7: obc_session_shutdown is idempotent — the second call returns the
state of the first unchanged and makes no external call (nothing is
unregistered, notified, retracted or disconnected twice) — and it is a
pure no-op on an already idle session (no pending transfers, no
registered path, no live connection id). -/
theorem c7_shutdown_idempotent (s : Obc.ObcSession)
    (h : s.pending.length < s.refcount) (htr : s.transport = true) :
    (Obc.obc_session_shutdown (Obc.obc_session_shutdown s).1 =
      ((Obc.obc_session_shutdown s).1, [])) ∧
    (s.pending = [] → s.path = none → s.id = 0 →
      Obc.obc_session_shutdown s = (s, [])) := by
  refine ⟨?_, ?_⟩
  · rw [shutdown_spec s h htr]
    rw [shutdown_spec _ (by simp; omega) (by simpa using htr)]
    simp
  · intro hp hpa hid
    obtain ⟨a1, a2, rc, a4, a5, a6, a7, a8, a9, a10, a11, a12, pa, pend, tr, fr⟩ := s
    dsimp only at h htr hp hpa hid ⊢
    subst htr; subst hp; subst hpa; subst hid
    simp only [List.length_nil] at h
    have hne : rc ≠ 0 := by omega
    simp [Obc.obc_session_shutdown, Obc.shutdownRemoveAll,
      Obc.obc_session_ref, Obc.obc_session_unref, hne]

/-- A session mid-connect: transport connect initiated (id 9), handshake
not yet run, one caller ref plus the connect-callback ref. -/
def sampleConnecting : Obc.ObcSession :=
  { sampleIdle with id := 9, refcount := 2 }

/-- C4 (counterexample): deliver the stream (transport_func retains the
GObex handle at once and registers the session), then complete the OBEX
CONNECT handshake with the non-success response 0x43.  The failure is
reported to the connect callback with an error, but the session is NOT
destroyed (one ref remains), the transport is NOT disconnected, and the
OBEX stream handle REMAINS attached. -/
theorem c4_counterexample :
    (Obc.transport_func sampleConnecting none true none).1.obex = true ∧
    (Obc.transport_func sampleConnecting none true none).2 =
      [Obc.Ev.registryPrepend] ∧
    (Obc.connect_cb (Obc.transport_func sampleConnecting none true none).1
      none 0x43).2 =
      [Obc.Ev.connectCbFired (some ("OBEX Connect failed"))] ∧
    (Obc.connect_cb (Obc.transport_func sampleConnecting none true none).1
      none 0x43).1.freed = false ∧
    (Obc.connect_cb (Obc.transport_func sampleConnecting none true none).1
      none 0x43).1.obex = true ∧
    (Obc.connect_cb (Obc.transport_func sampleConnecting none true none).1
      none 0x43).1.refcount = 1 ∧
    (Obc.connect_cb (Obc.transport_func sampleConnecting none true none).1
      none 0x43).1.id = 9 ∧
    Obc.Ev.transportDisconnect 9 ∉
      (Obc.connect_cb (Obc.transport_func sampleConnecting none true none).1
        none 0x43).2 := by
  decide

/-- C4 (amended): a transport error or a non-success OBEX CONNECT
response is reported to the caller's connect callback carrying an error,
and the connect-time session reference is dropped; but this path destroys
nothing else — while another reference remains the session survives, and
in the handshake-failure case the OBEX stream handle set at transport
delivery remains attached (only on a success response is it USED as the
live handle; it is retained either way). -/
theorem c4_failure_reported_session_survives (s : Obc.ObcSession)
    (err : Option String) (rsp : Nat)
    (hfail : err ≠ none ∨ rsp ≠ Obc.G_OBEX_RSP_SUCCESS)
    (hrc : 2 ≤ s.refcount) :
    (∃ m, Obc.connect_cb s err rsp =
      ({ s with refcount := s.refcount - 1 },
        [Obc.Ev.connectCbFired (some m)])) ∧
    (∀ (e : String) (obexNewOk : Bool) (cie : Option String),
      Obc.transport_func s (some e) obexNewOk cie =
        ({ s with refcount := s.refcount - 1 },
          [Obc.Ev.connectCbFired (some e)])) := by
  have hne : s.refcount - 1 ≠ 0 := by omega
  constructor
  · cases err with
    | some m =>
      exact ⟨m, by simp [Obc.connect_cb, Obc.obc_session_unref, hne]⟩
    | none =>
      have hrsp : rsp ≠ Obc.G_OBEX_RSP_SUCCESS := by
        rcases hfail with h | h
        · exact absurd rfl h
        · exact h
      exact ⟨"OBEX Connect failed",
        by simp [Obc.connect_cb, Obc.obc_session_unref, hne, hrsp]⟩
  · intro e obexNewOk cie
    simp [Obc.transport_func, Obc.obc_session_unref, hne]

/-- Witness for the amended C4 at the concrete mid-handshake session. -/
theorem c4_witness :
    (∃ m, Obc.connect_cb { sampleConnecting with obex := true } none 0x43 =
      ({ { sampleConnecting with obex := true } with
          refcount := ({ sampleConnecting with obex := true } :
            Obc.ObcSession).refcount - 1 },
        [Obc.Ev.connectCbFired (some m)])) ∧
    (∀ (e : String) (obexNewOk : Bool) (cie : Option String),
      Obc.transport_func { sampleConnecting with obex := true }
        (some e) obexNewOk cie =
        ({ { sampleConnecting with obex := true } with
            refcount := ({ sampleConnecting with obex := true } :
              Obc.ObcSession).refcount - 1 },
          [Obc.Ev.connectCbFired (some e)])) :=
  c4_failure_reported_session_survives
    { sampleConnecting with obex := true } none 0x43
    (Or.inr (by decide)) (by decide)

/-- The session produced by the first create of the C5 scenario: mid
transport connect (id 1), not yet registered, not connected. -/
def c5first : Obc.ObcSession :=
  { sampleIdle with addr := 10, id := 1, refcount := 2 }

/-- C5 (counterexample): a freshly created session joins the process-wide
registry only in transport_func, so while the first create's session is
still mid transport connect (id 1, no OBEX handle, registry still empty),
a second create with the identical (source, destination, service,
channel, owner) tuple finds nothing to reuse: it allocates a DIFFERENT
session object (addr 11) and starts a second transport connection
attempt. -/
theorem c5_counterexample :
    (Obc.obc_session_create [] none (some ("AA")) ("OPP") 0 none 10 1 true).1 =
      some c5first ∧
    (Obc.obc_session_create [] none (some ("AA")) ("OPP") 0 none 10 1 true).2.1 =
      [] ∧
    Obc.Ev.transportConnect ∈
      (Obc.obc_session_create [] none (some ("AA")) ("OPP") 0 none 10 1 true).2.2 ∧
    (Obc.obc_session_create [] none (some ("AA")) ("OPP") 0 none 11 2 true).1 =
      some { c5first with addr := 11, id := 2 } ∧
    Obc.Ev.transportConnect ∈
      (Obc.obc_session_create [] none (some ("AA")) ("OPP") 0 none 11 2 true).2.2 ∧
    ({ c5first with addr := 11, id := 2 } : Obc.ObcSession).addr ≠
      c5first.addr := by
  decide

/-- C5 (amended): reuse applies exactly to sessions present in the
registry — those whose transport already delivered a stream (OBEX
handshake initiated or complete).  For such a session, found by
session_find, a second create returns the SAME object (same addr) with
its reference count incremented and starts no new transport connection
attempt. -/
theorem c5_registered_session_reused (reg : List Obc.ObcSession)
    (source : Option String) (dst service : String) (channel : Nat)
    (owner : Option String) (s : Obc.ObcSession) (newAddr cid : Nat)
    (wok : Bool)
    (hfind : Obc.session_find reg source dst service channel owner = some s)
    (hlive : s.obex = true ∨ s.id ≠ 0) :
    (Obc.obc_session_create reg source (some dst) service channel owner
        newAddr cid wok).1 = some (Obc.obc_session_ref s) ∧
    (Obc.obc_session_create reg source (some dst) service channel owner
        newAddr cid wok).2.1 =
      Obc.replaceByAddr reg s.addr (Obc.obc_session_ref s) ∧
    (Obc.obc_session_ref s).addr = s.addr ∧
    (Obc.obc_session_ref s).refcount = s.refcount + 1 ∧
    Obc.Ev.transportConnect ∉
      (Obc.obc_session_create reg source (some dst) service channel owner
        newAddr cid wok).2.2 := by
  cases hobex : s.obex with
  | true =>
    simp [Obc.obc_session_create, hfind, Obc.session_connect,
      Obc.obc_session_ref, hobex]
  | false =>
    have hid : s.id ≠ 0 := by
      rcases hlive with h | h
      · rw [hobex] at h; exact absurd h (by simp)
      · exact h
    have hid2 : (s.id != 0) = true := by simpa using hid
    simp [Obc.obc_session_create, hfind, Obc.session_connect,
      Obc.obc_session_ref, hobex, hid2]

/-- A registered, connected session reachable from the registry. -/
def sampleRegistryEntry : Obc.ObcSession :=
  { sampleConnected with addr := 20 }

/-- Witness for the amended C5: the connected registry entry is reused. -/
theorem c5_witness :
    (Obc.obc_session_create [sampleRegistryEntry] none (some ("AA")) ("OPP") 0
        none 99 0 true).1 = some (Obc.obc_session_ref sampleRegistryEntry) ∧
    (Obc.obc_session_create [sampleRegistryEntry] none (some ("AA")) ("OPP") 0
        none 99 0 true).2.1 =
      Obc.replaceByAddr [sampleRegistryEntry] sampleRegistryEntry.addr
        (Obc.obc_session_ref sampleRegistryEntry) ∧
    (Obc.obc_session_ref sampleRegistryEntry).addr =
      sampleRegistryEntry.addr ∧
    (Obc.obc_session_ref sampleRegistryEntry).refcount =
      sampleRegistryEntry.refcount + 1 ∧
    Obc.Ev.transportConnect ∉
      (Obc.obc_session_create [sampleRegistryEntry] none (some ("AA")) ("OPP") 0
        none 99 0 true).2.2 :=
  c5_registered_session_reused [sampleRegistryEntry] none ("AA") ("OPP") 0 none
    sampleRegistryEntry 99 0 true (by decide) (Or.inl rfl)

/-- C10: a requested channel of 0 and an absent requested source are
wildcards in session_find — a session with a non-zero channel and a set
source is still returned when destination, service and owner match — and
consequently obc_session_create with channel 0 reuses that session (here
when it is connected, so reuse needs no new transport work). -/
theorem c10_wildcard_lookup (s : Obc.ObcSession) (rest : List Obc.ObcSession)
    (d svc : String) (ow : Option String)
    (hd : s.destination = d) (hsvc : s.driverService = svc)
    (how : s.owner = ow) :
    Obc.session_find (s :: rest) none d svc 0 ow = some s ∧
    (s.obex = true →
      (Obc.obc_session_create (s :: rest) none (some d) svc 0 ow 99 0
        true).1 = some (Obc.obc_session_ref s)) := by
  have hmatch : Obc.session_match s none d svc 0 ow = true := by
    simp [Obc.session_match, hd, hsvc, how]
  have hfind : Obc.session_find (s :: rest) none d svc 0 ow = some s := by
    unfold Obc.session_find
    exact List.find?_cons_of_pos rest hmatch
  refine ⟨hfind, ?_⟩
  intro hobex
  simp [Obc.obc_session_create, hfind, Obc.session_connect,
    Obc.obc_session_ref, hobex]

/-- A connected session on a specific non-zero channel with a set source. -/
def sampleChannelSeven : Obc.ObcSession :=
  { sampleConnected with addr := 30, channel := 7, source := some ("hci0") }

/-- Witness for C10: the channel-7 session with a set source is found and
reused by a channel-0, source-less request. -/
theorem c10_witness :
    Obc.session_find [sampleChannelSeven] none ("AA") ("OPP") 0 none =
      some sampleChannelSeven ∧
    (sampleChannelSeven.obex = true →
      (Obc.obc_session_create [sampleChannelSeven] none (some ("AA")) ("OPP") 0
        none 99 0 true).1 = some (Obc.obc_session_ref sampleChannelSeven)) :=
  c10_wildcard_lookup sampleChannelSeven [] "AA" "OPP" none rfl rfl rfl

/-- A busy session that also has a registered path and an extra ref. -/
def sampleRegistered : Obc.ObcSession :=
  { sampleBusy with
    path := some ("/org/openobex/session0"), refcount := 3 }

/-- Witness for C7 at a concrete registered, connected, busy session. -/
theorem c7_witness :
    (Obc.obc_session_shutdown
      (Obc.obc_session_shutdown
        sampleRegistered).1 =
      ((Obc.obc_session_shutdown
        sampleRegistered).1, [])) ∧
    ((sampleRegistered : Obc.ObcSession).pending = [] →
      (sampleRegistered : Obc.ObcSession).path = none →
      (sampleRegistered : Obc.ObcSession).id = 0 →
      Obc.obc_session_shutdown
        sampleRegistered =
        (sampleRegistered, [])) :=
  c7_shutdown_idempotent
    sampleRegistered
    (by decide) rfl

/-- Witness for the amended C1 at a busy concrete session. -/
theorem c1_witness :
    Obc.obc_session_send sampleBusy ⟨2, none⟩ true 0 0 =
      ⟨0, Obc.obc_session_add_transfer sampleBusy ⟨2, none⟩, [], []⟩ ∧
    (Obc.obc_session_get sampleBusy ⟨2, none⟩ none true 0).ret = 0 ∧
    (Obc.obc_session_get sampleBusy ⟨2, none⟩ none true 0).auths.map
      (fun o => o.fn) = [.get] ∧
    (Obc.obc_session_get sampleBusy ⟨2, none⟩ none true 0).auths.map
      (fun o => o.transfer) = [⟨2, none⟩] :=
  c1_send_queues_get_dispatches sampleBusy ⟨2, none⟩ none rfl (by decide)

